import Mathlib

/-!
Verification of the consortium bid simulation calculator
(src/src/calculations/simulation_calculator.py) against its specification.

The calculator receives a Python dictionary of loosely typed values, unpacks
and validates them inside a try block, runs a multi-stage amortization/bid
computation on floats, and returns a status dictionary; every raised
exception is caught by a handler that returns an error-status dictionary.

The embedding models Python values that can appear in the input dictionary
as an inductive type, Python exceptions as an error type threaded through
the unpack/validate phase, and the arithmetic over exact rationals.  Each
intermediate quantity of the computation is its own definition, named after
the corresponding local variable of the source.
-/

/-- A value stored in the input dictionary: a Python int, float, or None. -/
inductive PyVal where
  | pyInt (n : ℤ)
  | pyFloat (q : ℚ)
  | pyNone
deriving DecidableEq, Repr

/-- The exception kinds the calculator's handlers distinguish. -/
inductive PyErr where
  | valueError
  | typeError
  | zeroDivisionError
  | keyError
deriving DecidableEq, Repr

/-- Python float(v) on a dictionary value: ints widen, floats pass through,
None raises TypeError. -/
def pyFloatOf : PyVal → Except PyErr ℚ
  | .pyInt n => .ok (n : ℚ)
  | .pyFloat q => .ok q
  | .pyNone => .error .typeError

/-- Truncation toward zero, the semantics of Python int() on a float. -/
def ratTrunc (q : ℚ) : ℤ := if 0 ≤ q then ⌊q⌋ else ⌈q⌉

/-- Python int(v) on a dictionary value: ints pass through, floats truncate
toward zero, None raises TypeError. -/
def pyIntOf : PyVal → Except PyErr ℤ
  | .pyInt n => .ok n
  | .pyFloat q => .ok (ratTrunc q)
  | .pyNone => .error .typeError

/-- Python == between a dictionary value and an int literal (1 == 1.0 holds). -/
def pyEqInt (v : PyVal) (m : ℤ) : Bool :=
  match v with
  | .pyInt n => n == m
  | .pyFloat q => q == (m : ℚ)
  | .pyNone => false

/-- numpy round-half-to-even of a rational to an integer. -/
def roundHalfEven (q : ℚ) : ℤ :=
  if q - ⌊q⌋ < 1/2 then ⌊q⌋
  else if q - ⌊q⌋ > 1/2 then ⌊q⌋ + 1
  else if ⌊q⌋ % 2 = 0 then ⌊q⌋ else ⌊q⌋ + 1

/-- np.round(q, 0): round half to even, returned as a float. -/
def npRound0 (q : ℚ) : ℚ := (roundHalfEven q : ℚ)

/-- The input dictionary, restricted to the keys the calculator reads; a
`none` field is a missing key. -/
structure Inputs where
  valor_credito : Option PyVal
  prazo_meses : Option PyVal
  taxa_administracao_total : Option PyVal
  assembleia_atual : Option PyVal
  opcao_plano_light : Option PyVal
  opcao_seguro_prestamista : Option PyVal
  percentual_lance_ofertado : Option PyVal
  percentual_lance_embutido : Option PyVal
  qtd_parcelas_lance_ofertado : Option PyVal
  opcao_diluir_lance : Option PyVal
  TAXA_SEGURO_AUTO : Option PyVal
  TAXA_SEGURO_IMOVEL : Option PyVal
deriving DecidableEq, Repr

/-- The unpacked and validated parameters, as they stand after sections 1
and 2 of the source (the local variables feeding the pure computation). -/
structure Params where
  valor_credito : ℚ
  prazo_meses : ℤ
  taxa_administracao_total : ℚ
  assembleia_atual : ℤ
  opcao_plano_light : PyVal
  opcao_seguro_prestamista : PyVal
  percentual_lance_ofertado : ℚ
  percentual_lance_embutido : ℚ
  qtd_parcelas_lance_ofertado : ℤ
  opcao_diluir_lance : PyVal
  TAXA_SEGURO_AUTO : ℚ
  TAXA_SEGURO_IMOVEL : ℚ
deriving DecidableEq, Repr

/-- float(inputs[k]) for a required key: missing key raises KeyError. -/
def reqFloat (o : Option PyVal) : Except PyErr ℚ :=
  match o with
  | none => .error .keyError
  | some v => pyFloatOf v

/-- int(inputs[k]) for a required key: missing key raises KeyError. -/
def reqInt (o : Option PyVal) : Except PyErr ℤ :=
  match o with
  | none => .error .keyError
  | some v => pyIntOf v

/-- Sections 1 and 2 of realizar_calculo_simulacao: unpack the essential
inputs, validate them, unpack the optional inputs, in source order.  Any
raised exception short-circuits with its kind. -/
def parseInputs (i : Inputs) : Except PyErr Params :=
  match reqFloat i.valor_credito with
  | .error e => .error e
  | .ok valor_credito =>
  match reqInt i.prazo_meses with
  | .error e => .error e
  | .ok prazo_meses =>
  match reqFloat i.taxa_administracao_total with
  | .error e => .error e
  | .ok taxa_administracao_total =>
  match pyIntOf (i.assembleia_atual.getD (.pyInt 1)) with
  | .error e => .error e
  | .ok assembleia_atual =>
  if valor_credito ≤ 0 ∨ prazo_meses ≤ 0 ∨ taxa_administracao_total < 0 then
    .error .valueError
  else if assembleia_atual > prazo_meses then
    .error .valueError
  else
  match pyFloatOf (i.percentual_lance_ofertado.getD (.pyInt 0)) with
  | .error e => .error e
  | .ok percentual_lance_ofertado =>
  match pyFloatOf (i.percentual_lance_embutido.getD (.pyInt 0)) with
  | .error e => .error e
  | .ok percentual_lance_embutido =>
  match pyIntOf (i.qtd_parcelas_lance_ofertado.getD (.pyInt 0)) with
  | .error e => .error e
  | .ok qtd_parcelas_lance_ofertado =>
  match reqFloat i.TAXA_SEGURO_AUTO with
  | .error e => .error e
  | .ok tsa =>
  match reqFloat i.TAXA_SEGURO_IMOVEL with
  | .error e => .error e
  | .ok tsi =>
  .ok { valor_credito := valor_credito
        prazo_meses := prazo_meses
        taxa_administracao_total := taxa_administracao_total
        assembleia_atual := assembleia_atual
        opcao_plano_light := i.opcao_plano_light.getD (.pyInt 1)
        opcao_seguro_prestamista := i.opcao_seguro_prestamista.getD (.pyInt 0)
        percentual_lance_ofertado := percentual_lance_ofertado
        percentual_lance_embutido := percentual_lance_embutido
        qtd_parcelas_lance_ofertado := qtd_parcelas_lance_ofertado
        opcao_diluir_lance := i.opcao_diluir_lance.getD (.pyInt 1)
        TAXA_SEGURO_AUTO := tsa
        TAXA_SEGURO_IMOVEL := tsi }

/-- Section 3: credito_contratado = valor_credito. -/
def credito_contratado (p : Params) : ℚ := p.valor_credito

/-- Section 3: fator_taxa_total = 1 + taxa_administracao_total. -/
def fator_taxa_total (p : Params) : ℚ := 1 + p.taxa_administracao_total

/-- Section 3: taxa_amortizacao_mensal = fator_taxa_total / prazo_meses. -/
def taxa_amortizacao_mensal (p : Params) : ℚ := fator_taxa_total p / (p.prazo_meses : ℚ)

/-- Section 3: valor_total_a_pagar = valor_credito * fator_taxa_total. -/
def valor_total_a_pagar (p : Params) : ℚ := p.valor_credito * fator_taxa_total p

/-- Section 4: flag_seguro_auto = 1 if opcao_seguro_prestamista == 1 else 0. -/
def flag_seguro_auto (p : Params) : ℚ := if pyEqInt p.opcao_seguro_prestamista 1 then 1 else 0

/-- Section 4: flag_seguro_imovel = 1 if opcao_seguro_prestamista == 2 else 0. -/
def flag_seguro_imovel (p : Params) : ℚ := if pyEqInt p.opcao_seguro_prestamista 2 then 1 else 0

/-- Section 4: mapa_plano_light.get(opcao_plano_light, 1.0) over the table
1 to 1.0, 2 to 0.5, 3 to 0.6, 4 to 0.7, 5 to 0.8, 6 to 0.9. -/
def fator_plano_light (p : Params) : ℚ :=
  if pyEqInt p.opcao_plano_light 1 then 1
  else if pyEqInt p.opcao_plano_light 2 then 1/2
  else if pyEqInt p.opcao_plano_light 3 then 3/5
  else if pyEqInt p.opcao_plano_light 4 then 7/10
  else if pyEqInt p.opcao_plano_light 5 then 4/5
  else if pyEqInt p.opcao_plano_light 6 then 9/10
  else 1

/-- Section 4: percentual_parcela_base = taxa_amortizacao_mensal * fator_plano_light. -/
def percentual_parcela_base (p : Params) : ℚ := taxa_amortizacao_mensal p * fator_plano_light p

/-- Section 5: valor_seguro_auto = TAXA_SEGURO_AUTO * valor_total_a_pagar * flag. -/
def valor_seguro_auto (p : Params) : ℚ := p.TAXA_SEGURO_AUTO * valor_total_a_pagar p * flag_seguro_auto p

/-- Section 5: valor_seguro_imovel = TAXA_SEGURO_IMOVEL * valor_total_a_pagar * flag. -/
def valor_seguro_imovel (p : Params) : ℚ := p.TAXA_SEGURO_IMOVEL * valor_total_a_pagar p * flag_seguro_imovel p

/-- Section 5: valor_parcela_inicial. -/
def valor_parcela_inicial (p : Params) : ℚ :=
  p.valor_credito * percentual_parcela_base p + valor_seguro_auto p + valor_seguro_imovel p

/-- Section 6: prazo_restante_inicial = prazo_meses - assembleia_atual. -/
def prazo_restante_inicial (p : Params) : ℤ := p.prazo_meses - p.assembleia_atual

/-- Section 6: valor_pago_ate_assembleia = assembleia_atual * percentual_parcela_base. -/
def valor_pago_ate_assembleia (p : Params) : ℚ := (p.assembleia_atual : ℚ) * percentual_parcela_base p

/-- Section 6: saldo_devedor_faturado_inicial = fator_taxa_total - valor_pago_ate_assembleia. -/
def saldo_devedor_faturado_inicial (p : Params) : ℚ := fator_taxa_total p - valor_pago_ate_assembleia p

/-- Section 6: zero when no installments remain, else the billed balance
divided by the remaining term. -/
def taxa_amortizacao_mensal_pos_assembleia (p : Params) : ℚ :=
  if prazo_restante_inicial p ≤ 0 then 0
  else saldo_devedor_faturado_inicial p / (prazo_restante_inicial p : ℚ)

/-- Section 6: valor_parcela_base_pos_assembleia. -/
def valor_parcela_base_pos_assembleia (p : Params) : ℚ :=
  p.valor_credito * taxa_amortizacao_mensal_pos_assembleia p

/-- Section 7: valor_lance_ofertado_total = qtd_parcelas_lance_ofertado * valor_parcela_base_pos_assembleia. -/
def valor_lance_ofertado_total (p : Params) : ℚ :=
  (p.qtd_parcelas_lance_ofertado : ℚ) * valor_parcela_base_pos_assembleia p

/-- Section 7: the embedded-bid installment count before rounding. -/
def qtd_parcelas_lance_embutido_float (p : Params) : ℚ :=
  if valor_parcela_base_pos_assembleia p > 0 then
    p.valor_credito * p.percentual_lance_embutido / valor_parcela_base_pos_assembleia p
  else 0

/-- Section 7: qtd_parcelas_lance_embutido = np.round(..., 0). -/
def qtd_parcelas_lance_embutido (p : Params) : ℚ := npRound0 (qtd_parcelas_lance_embutido_float p)

/-- Section 7: valor_lance_embutido = qtd_parcelas_lance_embutido * valor_parcela_base_pos_assembleia. -/
def valor_lance_embutido (p : Params) : ℚ :=
  qtd_parcelas_lance_embutido p * valor_parcela_base_pos_assembleia p

/-- Section 7: percentual_lance_recurso_proprio. -/
def percentual_lance_recurso_proprio (p : Params) : ℚ :=
  p.percentual_lance_ofertado - p.percentual_lance_embutido

/-- Section 7: valor_lance_recurso_proprio = valor_lance_ofertado_total - valor_lance_embutido. -/
def valor_lance_recurso_proprio (p : Params) : ℚ :=
  valor_lance_ofertado_total p - valor_lance_embutido p

/-- Section 8: flag_diluir_lance_sim = 1 if opcao_diluir_lance == 1 else 0. -/
def flag_diluir_lance_sim (p : Params) : ℚ := if pyEqInt p.opcao_diluir_lance 1 then 1 else 0

/-- Section 8: flag_diluir_lance_nao = 1 if opcao_diluir_lance == 3 else 0. -/
def flag_diluir_lance_nao (p : Params) : ℚ := if pyEqInt p.opcao_diluir_lance 3 then 1 else 0

/-- Section 8: parcelas_pagas_no_lance_embutido. -/
def parcelas_pagas_no_lance_embutido (p : Params) : ℚ :=
  qtd_parcelas_lance_embutido p * flag_diluir_lance_sim p

/-- Section 8: parcelas_pagas_no_lance_ofertado. -/
def parcelas_pagas_no_lance_ofertado (p : Params) : ℚ :=
  (p.qtd_parcelas_lance_ofertado : ℚ) * flag_diluir_lance_nao p

/-- Section 8: total_parcelas_pagas_no_lance. -/
def total_parcelas_pagas_no_lance (p : Params) : ℚ :=
  (p.assembleia_atual : ℚ) + parcelas_pagas_no_lance_embutido p + parcelas_pagas_no_lance_ofertado p

/-- Section 8: prazo_restante_final = prazo_meses - total_parcelas_pagas_no_lance. -/
def prazo_restante_final (p : Params) : ℚ :=
  (p.prazo_meses : ℚ) - total_parcelas_pagas_no_lance p

/-- Section 9: valor_pago_total_com_lance. -/
def valor_pago_total_com_lance (p : Params) : ℚ :=
  (p.qtd_parcelas_lance_ofertado : ℚ) * taxa_amortizacao_mensal_pos_assembleia p +
    valor_pago_ate_assembleia p * p.valor_credito

/-- Section 9: saldo_devedor_base_final = valor_total_a_pagar - valor_pago_total_com_lance. -/
def saldo_devedor_base_final (p : Params) : ℚ :=
  valor_total_a_pagar p - valor_pago_total_com_lance p

/-- Section 9: the new base installment, zero when no term remains. -/
def nova_parcela_base (p : Params) : ℚ :=
  if prazo_restante_final p > 0 then saldo_devedor_base_final p / prazo_restante_final p
  else 0

/-- Section 9: valor_seguro_auto_final. -/
def valor_seguro_auto_final (p : Params) : ℚ :=
  p.TAXA_SEGURO_AUTO * saldo_devedor_base_final p * flag_seguro_auto p

/-- Section 9: valor_seguro_imovel_final. -/
def valor_seguro_imovel_final (p : Params) : ℚ :=
  p.TAXA_SEGURO_IMOVEL * saldo_devedor_base_final p * flag_seguro_imovel p

/-- Section 9: nova_parcela_pos_lance. -/
def nova_parcela_pos_lance (p : Params) : ℚ :=
  nova_parcela_base p + valor_seguro_auto_final p + valor_seguro_imovel_final p

/-- Section 9: credito_disponivel = credito_contratado - valor_lance_embutido. -/
def credito_disponivel (p : Params) : ℚ := credito_contratado p - valor_lance_embutido p

/-- The success dictionary returned by the calculator. -/
structure Results where
  credito_disponivel : ℚ
  nova_parcela_pos_lance : ℚ
  saldo_devedor_base_final : ℚ
  valor_lance_recurso_proprio : ℚ
  credito_contratado : ℚ
  valor_parcela_inicial : ℚ
  valor_lance_ofertado_total : ℚ
  valor_lance_embutido : ℚ
  total_parcelas_pagas_no_lance : ℚ
  prazo_restante_final : ℚ
  percentual_parcela_base : ℚ
  percentual_lance_recurso_proprio : ℚ
deriving DecidableEq, Repr

/-- Sections 3 to 9 assembled into the returned dictionary. -/
def computeCore (p : Params) : Results :=
  { credito_disponivel := credito_disponivel p
    nova_parcela_pos_lance := nova_parcela_pos_lance p
    saldo_devedor_base_final := saldo_devedor_base_final p
    valor_lance_recurso_proprio := valor_lance_recurso_proprio p
    credito_contratado := credito_contratado p
    valor_parcela_inicial := valor_parcela_inicial p
    valor_lance_ofertado_total := valor_lance_ofertado_total p
    valor_lance_embutido := valor_lance_embutido p
    total_parcelas_pagas_no_lance := total_parcelas_pagas_no_lance p
    prazo_restante_final := prazo_restante_final p
    percentual_parcela_base := percentual_parcela_base p
    percentual_lance_recurso_proprio := percentual_lance_recurso_proprio p }

/-- What the caller receives: a success dictionary, or the error-status
dictionary produced by the handler for the given exception kind. -/
inductive Outcome where
  | success (r : Results)
  | error (e : PyErr)
deriving DecidableEq, Repr

/-- realizar_calculo_simulacao: run the try block; every exception is caught
by a handler that returns an error-status dictionary. -/
def realizar_calculo_simulacao (i : Inputs) : Outcome :=
  match parseInputs i with
  | .ok p => .success (computeCore p)
  | .error e => .error e

/-- The "status" entry of the returned dictionary. -/
def statusOf : Outcome → String
  | .success _ => "success"
  | .error _ => "error"

/-- The input constraints of the specification's data-model table. -/
def SpecValid (p : Params) : Prop :=
  0 < p.valor_credito ∧ 0 < p.prazo_meses ∧ 0 ≤ p.taxa_administracao_total ∧
    1 ≤ p.assembleia_atual ∧ p.assembleia_atual ≤ p.prazo_meses ∧
    0 ≤ p.percentual_lance_ofertado ∧ 0 ≤ p.percentual_lance_embutido ∧
    p.percentual_lance_embutido ≤ p.percentual_lance_ofertado ∧
    0 ≤ p.qtd_parcelas_lance_ofertado

instance (p : Params) : Decidable (SpecValid p) := by unfold SpecValid; infer_instance

/-- An input dictionary in which every key is present with a well-typed value. -/
def mkInputs (vc : ℚ) (pm : ℤ) (ta : ℚ) (asm : ℤ) (opl : ℤ) (osp : ℤ)
    (plo : ℚ) (ple : ℚ) (qpo : ℤ) (odl : ℤ) (tsa : ℚ) (tsi : ℚ) : Inputs :=
  { valor_credito := some (.pyFloat vc)
    prazo_meses := some (.pyInt pm)
    taxa_administracao_total := some (.pyFloat ta)
    assembleia_atual := some (.pyInt asm)
    opcao_plano_light := some (.pyInt opl)
    opcao_seguro_prestamista := some (.pyInt osp)
    percentual_lance_ofertado := some (.pyFloat plo)
    percentual_lance_embutido := some (.pyFloat ple)
    qtd_parcelas_lance_ofertado := some (.pyInt qpo)
    opcao_diluir_lance := some (.pyInt odl)
    TAXA_SEGURO_AUTO := some (.pyFloat tsa)
    TAXA_SEGURO_IMOVEL := some (.pyFloat tsi) }

/-- The parameters mkInputs parses to when its validation passes. -/
def mkParams (vc : ℚ) (pm : ℤ) (ta : ℚ) (asm : ℤ) (opl : ℤ) (osp : ℤ)
    (plo : ℚ) (ple : ℚ) (qpo : ℤ) (odl : ℤ) (tsa : ℚ) (tsi : ℚ) : Params :=
  { valor_credito := vc
    prazo_meses := pm
    taxa_administracao_total := ta
    assembleia_atual := asm
    opcao_plano_light := .pyInt opl
    opcao_seguro_prestamista := .pyInt osp
    percentual_lance_ofertado := plo
    percentual_lance_embutido := ple
    qtd_parcelas_lance_ofertado := qpo
    opcao_diluir_lance := .pyInt odl
    TAXA_SEGURO_AUTO := tsa
    TAXA_SEGURO_IMOVEL := tsi }

/-- The specification's baseline scenario input. -/
def baselineInput : Inputs :=
  mkInputs 250000 240 (37/200) 1 1 0 (3/10) 0 180 1 (599/1000000) (392/1000000)

/-- The parameters the baseline scenario parses to. -/
def baselineParams : Params :=
  mkParams 250000 240 (37/200) 1 1 0 (3/10) 0 180 1 (599/1000000) (392/1000000)

/-- The specification's full-embedded-bid scenario input: the baseline with
percentual_lance_embutido = percentual_lance_ofertado = 0.30 and
qtd_parcelas_lance_ofertado = 0. -/
def fullEmbeddedInput : Inputs :=
  mkInputs 250000 240 (37/200) 1 1 0 (3/10) (3/10) 0 1 (599/1000000) (392/1000000)

/-- The parameters the full-embedded-bid scenario parses to. -/
def fullEmbeddedParams : Params :=
  mkParams 250000 240 (37/200) 1 1 0 (3/10) (3/10) 0 1 (599/1000000) (392/1000000)

/-- An otherwise-valid input whose percentual_lance_embutido (0.5) exceeds
its percentual_lance_ofertado (0). -/
def embutidoExcessInput : Inputs :=
  mkInputs 250000 240 (37/200) 1 1 0 0 (1/2) 0 1 (599/1000000) (392/1000000)

/-- The parameters the embedded-excess input parses to. -/
def embutidoExcessParams : Params :=
  mkParams 250000 240 (37/200) 1 1 0 0 (1/2) 0 1 (599/1000000) (392/1000000)

/-- A valid parameter set whose bid assembly is the final installment. -/
def terminalParams : Params :=
  mkParams 250000 240 (37/200) 240 1 0 (3/10) 0 180 1 (599/1000000) (392/1000000)

/-- A valid parameter set with no bid at all. -/
def noBidParams : Params :=
  mkParams 250000 240 (37/200) 1 1 0 0 0 0 1 (599/1000000) (392/1000000)

/-- Rounding the zero count gives zero. -/
theorem npRound0_zero : npRound0 0 = 0 := by
  norm_num [npRound0, roundHalfEven]

/-- Parsing a fully well-typed input dictionary reduces to the two
validation checks of the source. -/
theorem parseInputs_mkInputs (vc : ℚ) (pm : ℤ) (ta : ℚ) (asm : ℤ) (opl : ℤ) (osp : ℤ)
    (plo : ℚ) (ple : ℚ) (qpo : ℤ) (odl : ℤ) (tsa : ℚ) (tsi : ℚ) :
    parseInputs (mkInputs vc pm ta asm opl osp plo ple qpo odl tsa tsi) =
      (if vc ≤ 0 ∨ pm ≤ 0 ∨ ta < 0 then Except.error PyErr.valueError
       else if asm > pm then Except.error PyErr.valueError
       else Except.ok (mkParams vc pm ta asm opl osp plo ple qpo odl tsa tsi)) := by
  simp only [parseInputs, mkInputs, mkParams, reqFloat, reqInt, pyFloatOf, pyIntOf, Option.getD]

/-- The baseline scenario input parses to its parameters. -/
theorem parse_baseline : parseInputs baselineInput = Except.ok baselineParams := by
  unfold baselineInput baselineParams
  rw [parseInputs_mkInputs]
  norm_num

/-- The full-embedded-bid scenario input parses to its parameters. -/
theorem parse_fullEmbedded : parseInputs fullEmbeddedInput = Except.ok fullEmbeddedParams := by
  unfold fullEmbeddedInput fullEmbeddedParams
  rw [parseInputs_mkInputs]
  norm_num

/-- The embedded-excess input passes every validation check in the code. -/
theorem parse_embutidoExcess :
    parseInputs embutidoExcessInput = Except.ok embutidoExcessParams := by
  unfold embutidoExcessInput embutidoExcessParams
  rw [parseInputs_mkInputs]
  norm_num

/-- A successful parse fixes the valor_credito parameter to the converted
value of the valor_credito dictionary entry. -/
theorem parseInputs_ok_valor_credito (i : Inputs) (p : Params)
    (hp : parseInputs i = Except.ok p) :
    reqFloat i.valor_credito = Except.ok p.valor_credito := by
  unfold parseInputs at hp
  repeat' split at hp
  all_goals try (injection hp with hp2; subst hp2)
  all_goals simp_all

/-- C3 (confirmed): on every input on which the computation succeeds, the
returned credito_disponivel equals credito_contratado minus
valor_lance_embutido exactly. -/
theorem c3_credit_conservation (i : Inputs) (r : Results)
    (h : realizar_calculo_simulacao i = Outcome.success r) :
    r.credito_disponivel = r.credito_contratado - r.valor_lance_embutido := by
  unfold realizar_calculo_simulacao at h
  cases hp : parseInputs i <;> rw [hp] at h
  · exact absurd h (by simp)
  · injection h with h2
    subst h2
    rfl

/-- C3 witness: the conservation identity at the baseline scenario. -/
theorem c3_credit_conservation_witness :
    ∃ r, realizar_calculo_simulacao baselineInput = Outcome.success r ∧
      r.credito_disponivel = r.credito_contratado - r.valor_lance_embutido := by
  have h : realizar_calculo_simulacao baselineInput = Outcome.success (computeCore baselineParams) := by
    unfold realizar_calculo_simulacao
    rw [parse_baseline]
  exact ⟨computeCore baselineParams, h, c3_credit_conservation baselineInput (computeCore baselineParams) h⟩

/-- C7 (confirmed): the embedded-bid installment count is the half-even
rounding of valor_credito * percentual_lance_embutido divided by the
post-assembly base installment when that installment is positive, and 0
otherwise; valor_lance_embutido is that count times the base installment;
and the count is an integer. -/
theorem c7_single_rounding_point (p : Params) :
    qtd_parcelas_lance_embutido p =
      (if valor_parcela_base_pos_assembleia p > 0 then
        npRound0 (p.valor_credito * p.percentual_lance_embutido / valor_parcela_base_pos_assembleia p)
      else 0) ∧
      valor_lance_embutido p = qtd_parcelas_lance_embutido p * valor_parcela_base_pos_assembleia p ∧
      ∃ n : ℤ, qtd_parcelas_lance_embutido p = (n : ℚ) := by
  refine ⟨?_, rfl, ⟨roundHalfEven (qtd_parcelas_lance_embutido_float p), rfl⟩⟩
  rw [qtd_parcelas_lance_embutido, qtd_parcelas_lance_embutido_float]
  by_cases hc : valor_parcela_base_pos_assembleia p > 0
  · rw [if_pos hc, if_pos hc]
  · rw [if_neg hc, if_neg hc]
    exact npRound0_zero

/-- C8 (confirmed): the calculator is a pure function, so two invocations
with identical inputs return identical results. -/
theorem c8_determinism (i j : Inputs) (h : i = j) :
    realizar_calculo_simulacao i = realizar_calculo_simulacao j := by
  rw [h]

/-- C8 witness: two-run equality at the baseline input. -/
theorem c8_determinism_witness :
    baselineInput = baselineInput ∧
      realizar_calculo_simulacao baselineInput = realizar_calculo_simulacao baselineInput :=
  ⟨rfl, c8_determinism baselineInput baselineInput rfl⟩

/-- C9 (confirmed): on every input dictionary, including those with missing
keys or ill-typed values, the call returns a dictionary whose status entry
is either success or error; no exception escapes to the caller. -/
theorem c9_total_status (i : Inputs) :
    statusOf (realizar_calculo_simulacao i) = "success" ∨
      statusOf (realizar_calculo_simulacao i) = "error" := by
  unfold realizar_calculo_simulacao
  cases parseInputs i <;> simp [statusOf]

/-- C10 (confirmed): on every input on which the computation succeeds, the
returned credito_contratado is exactly the unpacked valor_credito input,
untouched by the bid, insurance and light-plan stages. -/
theorem c10_credito_contratado_passthrough (i : Inputs) (p : Params)
    (hp : parseInputs i = Except.ok p) :
    realizar_calculo_simulacao i = Outcome.success (computeCore p) ∧
      (computeCore p).credito_contratado = p.valor_credito ∧
      reqFloat i.valor_credito = Except.ok ((computeCore p).credito_contratado) := by
  refine ⟨?_, rfl, ?_⟩
  · unfold realizar_calculo_simulacao
    rw [hp]
  · exact parseInputs_ok_valor_credito i p hp

/-- C10 witness: the passthrough at the baseline scenario. -/
theorem c10_credito_contratado_passthrough_witness :
    parseInputs baselineInput = Except.ok baselineParams ∧
      (realizar_calculo_simulacao baselineInput = Outcome.success (computeCore baselineParams) ∧
        (computeCore baselineParams).credito_contratado = baselineParams.valor_credito ∧
        reqFloat baselineInput.valor_credito = Except.ok ((computeCore baselineParams).credito_contratado)) :=
  ⟨parse_baseline, c10_credito_contratado_passthrough baselineInput baselineParams parse_baseline⟩

/-- C1 counterexample: an otherwise-valid input whose percentual_lance_embutido
exceeds its percentual_lance_ofertado is not rejected; the calculator
computes and returns a success result for it. -/
theorem c1_embutido_excess_not_rejected :
    embutidoExcessParams.percentual_lance_ofertado < embutidoExcessParams.percentual_lance_embutido ∧
      realizar_calculo_simulacao embutidoExcessInput = Outcome.success (computeCore embutidoExcessParams) := by
  constructor
  · norm_num [embutidoExcessParams, mkParams]
  · unfold realizar_calculo_simulacao
    rw [parse_embutidoExcess]

/-- C1 amended (confirmed): a well-typed input violating any of the four
checked invariants (valor_credito <= 0, prazo_meses <= 0,
taxa_administracao_total < 0, assembleia_atual > prazo_meses) makes the
call fail with the caught-ValueError outcome, before any computation. -/
theorem c1_checked_invariants_rejected (vc : ℚ) (pm : ℤ) (ta : ℚ) (asm : ℤ) (opl : ℤ)
    (osp : ℤ) (plo : ℚ) (ple : ℚ) (qpo : ℤ) (odl : ℤ) (tsa : ℚ) (tsi : ℚ)
    (h : vc ≤ 0 ∨ pm ≤ 0 ∨ ta < 0 ∨ asm > pm) :
    realizar_calculo_simulacao (mkInputs vc pm ta asm opl osp plo ple qpo odl tsa tsi) =
      Outcome.error PyErr.valueError := by
  unfold realizar_calculo_simulacao
  rw [parseInputs_mkInputs]
  by_cases h1 : vc ≤ 0 ∨ pm ≤ 0 ∨ ta < 0
  · rw [if_pos h1]
  · have hgt : asm > pm := by tauto
    rw [if_neg h1, if_pos hgt]

/-- C1 witness: a negative valor_credito is rejected. -/
theorem c1_checked_invariants_rejected_witness :
    ((-1 : ℚ) ≤ 0 ∨ (240 : ℤ) ≤ 0 ∨ (37/200 : ℚ) < 0 ∨ (1 : ℤ) > 240) ∧
      realizar_calculo_simulacao
          (mkInputs (-1) 240 (37/200) 1 1 0 (3/10) 0 180 1 (599/1000000) (392/1000000)) =
        Outcome.error PyErr.valueError :=
  ⟨Or.inl (by norm_num),
    c1_checked_invariants_rejected (-1) 240 (37/200) 1 1 0 (3/10) 0 180 1 (599/1000000)
      (392/1000000) (Or.inl (by norm_num))⟩

/-- In the full-embedded-bid scenario the post-assembly base installment is
9875/8 (that is, 1234.375). -/
theorem fullEmbedded_base_pos : valor_parcela_base_pos_assembleia fullEmbeddedParams = 9875/8 := by
  norm_num [valor_parcela_base_pos_assembleia, taxa_amortizacao_mensal_pos_assembleia,
    prazo_restante_inicial, saldo_devedor_faturado_inicial, fator_taxa_total,
    valor_pago_ate_assembleia, percentual_parcela_base, taxa_amortizacao_mensal,
    fator_plano_light, pyEqInt, fullEmbeddedParams, mkParams]

/-- In the full-embedded-bid scenario the rounded embedded installment count
is 61. -/
theorem fullEmbedded_qtd : qtd_parcelas_lance_embutido fullEmbeddedParams = 61 := by
  rw [qtd_parcelas_lance_embutido, qtd_parcelas_lance_embutido_float, fullEmbedded_base_pos]
  rw [if_pos (by norm_num)]
  have h : (fullEmbeddedParams.valor_credito * fullEmbeddedParams.percentual_lance_embutido /
      (9875/8) : ℚ) = 4800/79 := by
    norm_num [fullEmbeddedParams, mkParams]
  rw [h, npRound0, roundHalfEven]
  norm_num

/-- In the full-embedded-bid scenario valor_lance_embutido is 602375/8
(that is, 75296.875). -/
theorem fullEmbedded_embutido : valor_lance_embutido fullEmbeddedParams = 602375/8 := by
  rw [valor_lance_embutido, fullEmbedded_qtd, fullEmbedded_base_pos]
  norm_num

/-- In the full-embedded-bid scenario valor_lance_ofertado_total is 0,
because the code derives it from qtd_parcelas_lance_ofertado, which is 0. -/
theorem fullEmbedded_ofertado_total : valor_lance_ofertado_total fullEmbeddedParams = 0 := by
  rw [valor_lance_ofertado_total]
  norm_num [fullEmbeddedParams, mkParams]

/-- C2 counterexample: in the full-embedded-bid scenario the computation
succeeds but the returned valor_lance_recurso_proprio is not 0. -/
theorem c2_recurso_proprio_not_zero :
    ∃ r, realizar_calculo_simulacao fullEmbeddedInput = Outcome.success r ∧
      r.valor_lance_recurso_proprio ≠ 0 := by
  refine ⟨computeCore fullEmbeddedParams, ?_, ?_⟩
  · unfold realizar_calculo_simulacao
    rw [parse_fullEmbedded]
  · show valor_lance_recurso_proprio fullEmbeddedParams ≠ 0
    rw [valor_lance_recurso_proprio, fullEmbedded_ofertado_total, fullEmbedded_embutido]
    norm_num

/-- C2 amended (confirmed): in the full-embedded-bid scenario the returned
valor_lance_recurso_proprio equals the negation of valor_lance_embutido
(strictly negative, not 0), and credito_disponivel is strictly below the
contracted credit of 250000. -/
theorem c2_full_embedded_scenario_amended :
    ∃ r, realizar_calculo_simulacao fullEmbeddedInput = Outcome.success r ∧
      r.valor_lance_recurso_proprio = -r.valor_lance_embutido ∧
      r.valor_lance_recurso_proprio < 0 ∧
      r.credito_disponivel < 250000 := by
  refine ⟨computeCore fullEmbeddedParams, ?_, ?_, ?_, ?_⟩
  · unfold realizar_calculo_simulacao
    rw [parse_fullEmbedded]
  · show valor_lance_recurso_proprio fullEmbeddedParams = -(valor_lance_embutido fullEmbeddedParams)
    rw [valor_lance_recurso_proprio, fullEmbedded_ofertado_total, fullEmbedded_embutido]
    norm_num
  · show valor_lance_recurso_proprio fullEmbeddedParams < 0
    rw [valor_lance_recurso_proprio, fullEmbedded_ofertado_total, fullEmbedded_embutido]
    norm_num
  · show credito_disponivel fullEmbeddedParams < 250000
    rw [credito_disponivel, credito_contratado, fullEmbedded_embutido]
    norm_num [fullEmbeddedParams, mkParams]

/-- C4 (confirmed): when the bid assembly is the final installment, the two
guarded divisions are skipped and both the post-assembly amortization rate
and the new base installment resolve to exactly 0. -/
theorem c4_terminal_edge_zero (p : Params) (hv : SpecValid p)
    (h : p.assembleia_atual = p.prazo_meses) :
    taxa_amortizacao_mensal_pos_assembleia p = 0 ∧ nova_parcela_base p = 0 := by
  obtain ⟨-, -, -, -, -, -, -, -, hq⟩ := hv
  have hpri : prazo_restante_inicial p ≤ 0 := by
    rw [prazo_restante_inicial, h]
    omega
  have ht : taxa_amortizacao_mensal_pos_assembleia p = 0 := by
    rw [taxa_amortizacao_mensal_pos_assembleia, if_pos hpri]
  have hb : valor_parcela_base_pos_assembleia p = 0 := by
    rw [valor_parcela_base_pos_assembleia, ht, mul_zero]
  have hqf : qtd_parcelas_lance_embutido_float p = 0 := by
    rw [qtd_parcelas_lance_embutido_float, hb]
    norm_num
  have hemb : qtd_parcelas_lance_embutido p = 0 := by
    rw [qtd_parcelas_lance_embutido, hqf, npRound0_zero]
  have hflag : 0 ≤ flag_diluir_lance_nao p := by
    rw [flag_diluir_lance_nao]
    split <;> norm_num
  have hfin : prazo_restante_final p ≤ 0 := by
    rw [prazo_restante_final, total_parcelas_pagas_no_lance, parcelas_pagas_no_lance_embutido,
      hemb, zero_mul, parcelas_pagas_no_lance_ofertado, h]
    have hprod : 0 ≤ (p.qtd_parcelas_lance_ofertado : ℚ) * flag_diluir_lance_nao p :=
      mul_nonneg (by exact_mod_cast hq) hflag
    linarith
  refine ⟨ht, ?_⟩
  rw [nova_parcela_base, if_neg (not_lt.mpr hfin)]

/-- C4 witness: the terminal edge at assembleia_atual = prazo_meses = 240. -/
theorem c4_terminal_edge_zero_witness :
    SpecValid terminalParams ∧
      terminalParams.assembleia_atual = terminalParams.prazo_meses ∧
      (taxa_amortizacao_mensal_pos_assembleia terminalParams = 0 ∧
        nova_parcela_base terminalParams = 0) :=
  ⟨by norm_num [SpecValid, terminalParams, mkParams], rfl,
    c4_terminal_edge_zero terminalParams
      (by norm_num [SpecValid, terminalParams, mkParams]) rfl⟩

/-- C5 (confirmed): with a zero bid the bid stages are a no-op, and the new
installment is the pre-bid per-installment amortization for the remaining
term plus the applicable final insurance terms. -/
theorem c5_no_bid_noop (p : Params) (hv : SpecValid p)
    (h1 : p.percentual_lance_ofertado = 0) (h2 : p.percentual_lance_embutido = 0)
    (h3 : p.qtd_parcelas_lance_ofertado = 0) :
    nova_parcela_pos_lance p =
      valor_parcela_base_pos_assembleia p + valor_seguro_auto_final p +
        valor_seguro_imovel_final p := by
  have hqf : qtd_parcelas_lance_embutido_float p = 0 := by
    rw [qtd_parcelas_lance_embutido_float, h2]
    split <;> norm_num
  have hemb : qtd_parcelas_lance_embutido p = 0 := by
    rw [qtd_parcelas_lance_embutido, hqf, npRound0_zero]
  have hfin : prazo_restante_final p = ((p.prazo_meses - p.assembleia_atual : ℤ) : ℚ) := by
    rw [prazo_restante_final, total_parcelas_pagas_no_lance, parcelas_pagas_no_lance_embutido,
      hemb, zero_mul, parcelas_pagas_no_lance_ofertado, h3]
    push_cast
    ring
  have hsaldo : saldo_devedor_base_final p =
      p.valor_credito * saldo_devedor_faturado_inicial p := by
    rw [saldo_devedor_base_final, valor_pago_total_com_lance, h3, valor_total_a_pagar,
      saldo_devedor_faturado_inicial]
    push_cast
    ring
  have hnb : nova_parcela_base p = valor_parcela_base_pos_assembleia p := by
    by_cases hc : prazo_restante_inicial p ≤ 0
    · have ht : taxa_amortizacao_mensal_pos_assembleia p = 0 := by
        rw [taxa_amortizacao_mensal_pos_assembleia, if_pos hc]
      have hb : valor_parcela_base_pos_assembleia p = 0 := by
        rw [valor_parcela_base_pos_assembleia, ht, mul_zero]
      have hnpos : ¬ prazo_restante_final p > 0 := by
        rw [hfin]
        rw [prazo_restante_inicial] at hc
        simp only [not_lt]
        exact_mod_cast hc
      rw [nova_parcela_base, if_neg hnpos, hb]
    · have hc2 : (0 : ℤ) < prazo_restante_inicial p := not_le.mp hc
      have hpos : prazo_restante_final p > 0 := by
        rw [hfin]
        rw [prazo_restante_inicial] at hc2
        exact_mod_cast hc2
      rw [nova_parcela_base, if_pos hpos, hsaldo, hfin, valor_parcela_base_pos_assembleia,
        taxa_amortizacao_mensal_pos_assembleia, if_neg hc, prazo_restante_inicial,
        mul_div_assoc]
  rw [nova_parcela_pos_lance, hnb]

/-- C5 witness: the no-bid no-op at a concrete valid parameter set. -/
theorem c5_no_bid_noop_witness :
    SpecValid noBidParams ∧ noBidParams.percentual_lance_ofertado = 0 ∧
      noBidParams.percentual_lance_embutido = 0 ∧
      noBidParams.qtd_parcelas_lance_ofertado = 0 ∧
      nova_parcela_pos_lance noBidParams =
        valor_parcela_base_pos_assembleia noBidParams + valor_seguro_auto_final noBidParams +
          valor_seguro_imovel_final noBidParams :=
  ⟨by norm_num [SpecValid, noBidParams, mkParams], rfl, rfl, rfl,
    c5_no_bid_noop noBidParams (by norm_num [SpecValid, noBidParams, mkParams]) rfl rfl rfl⟩
